import Mathlib

/-!
Verification of the geometry/synchronization engine of the overlay-scrollbar
widget (`custom-scrollbar.component.ts`).

The embedding is shallow: DOM reads (`scrollTop`, `scrollHeight`,
`clientHeight`, `offsetHeight`, pointer coordinates) are exact rationals,
and every arithmetic step of the source is mirrored over `JNum`, a model of
JavaScript IEEE-754 doubles restricted to the value classes the source can
produce: finite values (idealized as exact rationals, i.e. ignoring rounding),
`NaN`, `+Infinity` and `-Infinity`.  Division in particular follows JavaScript:
a finite value divided by zero yields `NaN` (for `0/0`) or a signed infinity,
never a "default" value.
-/

namespace OverlayScrollbar

/-- Model of a JavaScript number: an exact rational for finite doubles,
plus `NaN` and the two infinities. -/
inductive JNum where
  | num (q : ℚ)
  | nan
  | pinf
  | ninf
deriving DecidableEq, Repr

/-- `true` exactly on finite values. -/
def JNum.finite? : JNum → Bool
  | .num _ => true
  | _ => false

/-- JavaScript `/` on numbers (sign conventions of IEEE-754 with a single
zero: the denominators produced by the source are `x - x`, which is `+0`). -/
def JNum.div : JNum → JNum → JNum
  | .nan, _ => .nan
  | _, .nan => .nan
  | .num a, .num b =>
      if b ≠ 0 then .num (a / b)
      else if a > 0 then .pinf
      else if a < 0 then .ninf
      else .nan
  | .num _, .pinf => .num 0
  | .num _, .ninf => .num 0
  | .pinf, .num b => if b ≥ 0 then .pinf else .ninf
  | .ninf, .num b => if b ≥ 0 then .ninf else .pinf
  | .pinf, .pinf => .nan
  | .pinf, .ninf => .nan
  | .ninf, .pinf => .nan
  | .ninf, .ninf => .nan

/-- JavaScript `*` on numbers. -/
def JNum.mul : JNum → JNum → JNum
  | .nan, _ => .nan
  | _, .nan => .nan
  | .num a, .num b => .num (a * b)
  | .pinf, .num b => if b > 0 then .pinf else if b < 0 then .ninf else .nan
  | .num a, .pinf => if a > 0 then .pinf else if a < 0 then .ninf else .nan
  | .ninf, .num b => if b > 0 then .ninf else if b < 0 then .pinf else .nan
  | .num a, .ninf => if a > 0 then .ninf else if a < 0 then .pinf else .nan
  | .pinf, .pinf => .pinf
  | .ninf, .ninf => .pinf
  | .pinf, .ninf => .ninf
  | .ninf, .pinf => .ninf

/-- JavaScript `Math.max` (propagates `NaN`). -/
def JNum.jmax : JNum → JNum → JNum
  | .nan, _ => .nan
  | _, .nan => .nan
  | .pinf, _ => .pinf
  | _, .pinf => .pinf
  | .ninf, b => b
  | a, .ninf => a
  | .num a, .num b => .num (max a b)

/-- JavaScript `Math.min` (propagates `NaN`). -/
def JNum.jmin : JNum → JNum → JNum
  | .nan, _ => .nan
  | _, .nan => .nan
  | .ninf, _ => .ninf
  | _, .ninf => .ninf
  | .pinf, b => b
  | a, .pinf => a
  | .num a, .num b => .num (min a b)

/-- The scroll metrics the engine reads from the viewport element. -/
structure ScrollMetrics where
  scrollTop : ℚ
  scrollHeight : ℚ
  clientHeight : ℚ
deriving DecidableEq, Repr

/-- The data-model invariants of `ScrollMetrics` (DOM measurements):
`scrollTop ≥ 0`, `scrollHeight > 0`, `clientHeight > 0`. -/
def ScrollMetrics.valid (m : ScrollMetrics) : Prop :=
  0 ≤ m.scrollTop ∧ 0 < m.scrollHeight ∧ 0 < m.clientHeight

instance (m : ScrollMetrics) : Decidable m.valid := by
  unfold ScrollMetrics.valid; infer_instance

/-- The style writes performed by `updateThumbSize`: the `display` values of
the thumb and of its parent (the track), and the thumb `height` style when one
is written (`none` = the height style is left untouched). -/
structure ThumbSizeEffect where
  thumbDisplay : String
  trackDisplay : String
  thumbHeight : Option JNum
deriving DecidableEq, Repr

/-- `updateThumbSize` from the source: hide thumb and track when
`scrollHeight <= clientHeight + 5` and return without deriving a height;
otherwise show both and write
`height = Math.max(50, Math.min(clientHeight - 20, clientHeight * (clientHeight / scrollHeight)))`. -/
def updateThumbSize (m : ScrollMetrics) : ThumbSizeEffect :=
  if m.scrollHeight ≤ m.clientHeight + 5 then
    { thumbDisplay := "none", trackDisplay := "none", thumbHeight := none }
  else
    let thumbHeightRatio := JNum.div (.num m.clientHeight) (.num m.scrollHeight)
    let minThumbHeight : JNum := .num 50
    let maxThumbHeight : JNum := .num (m.clientHeight - 20)
    let calculatedHeight := JNum.mul (.num m.clientHeight) thumbHeightRatio
    { thumbDisplay := "block", trackDisplay := "block",
      thumbHeight := some (JNum.jmax minThumbHeight (JNum.jmin maxThumbHeight calculatedHeight)) }

/-- `updateThumbPosition` from the source: the `y` written into the thumb's
`translate3d(0, y px, 0)` transform.  `offsetHeight` is the thumb's measured
height.  The division `scrollTop / (scrollHeight - clientHeight)` is exactly
as in the source: unguarded. -/
def updateThumbPosition (m : ScrollMetrics) (offsetHeight : ℚ) : JNum :=
  let scrollPercentage := JNum.div (.num m.scrollTop) (.num (m.scrollHeight - m.clientHeight))
  let thumbMaxY := m.clientHeight - offsetHeight
  JNum.mul scrollPercentage (.num thumbMaxY)

/-- The two writes a drag-move performs: the `y` written into the thumb's
transform, and the value assigned to the viewport's `scrollTop`. -/
structure DragMoveResult where
  thumbY : JNum
  scrollTop : JNum
deriving DecidableEq, Repr

/-- `onDocumentMouseMove` from the source (the touch-move handler
`onDocumentTouchMove` is char-for-char the same computation on the first touch
point).  Returns `none` when `isDragging` is false (the handler returns before
writing anything).  `dragStartY` and `thumbStartY` are the values captured at
drag start, `clientY` the pointer's current coordinate, `offsetHeight` the
thumb's measured height.  The clamp `Math.max(0, Math.min(..))` is on finite
inputs, hence plain rational `max`/`min`; the inverse mapping divides by
`thumbMaxY` with JavaScript division. -/
def onDocumentMouseMove (isDragging : Bool) (dragStartY thumbStartY clientY : ℚ)
    (m : ScrollMetrics) (offsetHeight : ℚ) : Option DragMoveResult :=
  if !isDragging then none
  else
    let deltaY := clientY - dragStartY
    let newThumbY := thumbStartY + deltaY
    let thumbMaxY := m.clientHeight - offsetHeight
    let clampedThumbY := max 0 (min newThumbY thumbMaxY)
    let scrollPercentage := JNum.div (.num clampedThumbY) (.num thumbMaxY)
    let newScrollTop := JNum.mul scrollPercentage (.num (m.scrollHeight - m.clientHeight))
    some { thumbY := .num clampedThumbY, scrollTop := newScrollTop }

/-- The scroll request issued by `onTrackClick` via `viewportEl.scrollTo`. -/
structure ScrollRequest where
  top : JNum
  smooth : Bool
deriving DecidableEq, Repr

/-- `onTrackClick` from the source.  `targetIsThumb` models
`event.target === this.thumbEl`; `clientY` is `event.clientY` and `rectTop`
the track's bounding-rect top; `offsetHeight` the thumb's measured height.
Returns the scroll request, or `none` when the handler returns without
scrolling. -/
def onTrackClick (targetIsThumb : Bool) (clientY rectTop : ℚ)
    (m : ScrollMetrics) (offsetHeight : ℚ) : Option ScrollRequest :=
  if targetIsThumb then none
  else
    let clickY := clientY - rectTop
    let targetThumbY := clickY - offsetHeight / 2
    let thumbMaxY := m.clientHeight - offsetHeight
    let clampedThumbY := max 0 (min targetThumbY thumbMaxY)
    let scrollPercentage := JNum.div (.num clampedThumbY) (.num thumbMaxY)
    let newScrollTop := JNum.mul scrollPercentage (.num (m.scrollHeight - m.clientHeight))
    some { top := newScrollTop, smooth := true }

/-- One named color scheme (`colorSchemes` entries in the source). -/
structure ColorScheme where
  thumb : String
  thumbHover : String
  thumbActive : String
  track : String
  trackHover : String
deriving DecidableEq, Repr

/-- The green scheme from `colorSchemes`. -/
def greenScheme : ColorScheme :=
  { thumb := "#08a208", thumbHover := "rgba(21, 128, 61, 0.9)",
    thumbActive := "rgba(20, 83, 45, 0.95)", track := "rgba(224, 246,224,0.6)",
    trackHover := "rgba(34, 197, 94, 0.25)" }

/-- The blue scheme from `colorSchemes`. -/
def blueScheme : ColorScheme :=
  { thumb := "#0076CC", thumbHover := "rgba(0, 80, 160, 0.9)",
    thumbActive := "rgba(0, 60, 120, 0.95)", track := "rgba(217,229,255,0.6)",
    trackHover := "rgba(59, 130, 246, 0.25)" }

/-- The color values `applyCustomization` writes: the thumb and track
background colors, and the three CSS custom properties for hover/active. -/
structure AppliedColors where
  thumbBackground : String
  trackBackground : String
  thumbHoverVar : String
  thumbActiveVar : String
  trackHoverVar : String
deriving DecidableEq, Repr

/-- JavaScript `a || b` on the strings involved: an empty string is falsy. -/
def jsOrString (a b : String) : String := if a = "" then b else a

/-- `applyCustomization` from the source: every color write uses
`override || schemeColor`, including the hover/active custom properties. -/
def applyCustomization (thumbColorOverride trackColorOverride : String)
    (scheme : ColorScheme) : AppliedColors :=
  { thumbBackground := jsOrString thumbColorOverride scheme.thumb,
    trackBackground := jsOrString trackColorOverride scheme.track,
    thumbHoverVar := jsOrString thumbColorOverride scheme.thumbHover,
    thumbActiveVar := jsOrString thumbColorOverride scheme.thumbActive,
    trackHoverVar := jsOrString trackColorOverride scheme.trackHover }

/-- The widget-written style state of the thumb/track pair, for the
event-ordering model: the transform `y`, the `display` values, the height
style, and the viewport `scrollTop` as last written by the widget. -/
structure DomState where
  thumbTransform : JNum
  thumbDisplay : String
  trackDisplay : String
  thumbHeightStyle : Option JNum
deriving DecidableEq, Repr

/-- Widget state for the event-ordering model: the drag flag plus the style
state the handlers write. -/
structure WState where
  isDragging : Bool
  dom : DomState
deriving DecidableEq, Repr

/-- Apply the style writes of `updateThumbSize` to the DOM state (a `none`
height means the height style is left as it was). -/
def applyThumbSize (m : ScrollMetrics) (d : DomState) : DomState :=
  let e := updateThumbSize m
  { d with thumbDisplay := e.thumbDisplay, trackDisplay := e.trackDisplay,
           thumbHeightStyle :=
             match e.thumbHeight with
             | some h => some h
             | none => d.thumbHeightStyle }

/-- Apply the transform write of `updateThumbPosition` to the DOM state. -/
def applyThumbPosition (m : ScrollMetrics) (offsetHeight : ℚ) (d : DomState) : DomState :=
  { d with thumbTransform := updateThumbPosition m offsetHeight }

/-- `onContentScroll` from the source: recompute the thumb position only when
not dragging. -/
def onContentScroll (m : ScrollMetrics) (offsetHeight : ℚ) (s : WState) : WState :=
  if !s.isDragging then { s with dom := applyThumbPosition m offsetHeight s.dom }
  else s

/-- The MutationObserver callback registered in `setupContentObserver` (after
its 50 ms debounce): `updateThumbSize()` then `updateThumbPosition()`, with no
check of `isDragging`. -/
def contentMutationRecompute (m : ScrollMetrics) (offsetHeight : ℚ) (s : WState) : WState :=
  { s with dom := applyThumbPosition m offsetHeight (applyThumbSize m s.dom) }

/-- The `setInterval` callback registered in `setupContentObserver` (the ~1 s
periodic recheck): `updateThumbSize()` only. -/
def periodicSizeRecheck (m : ScrollMetrics) (s : WState) : WState :=
  { s with dom := applyThumbSize m s.dom }

/-- `onWindowResize` from the source (after its 100 ms timeout):
`updateThumbSize()` then `updateThumbPosition()`, with no check of
`isDragging`. -/
def onWindowResize (m : ScrollMetrics) (offsetHeight : ℚ) (s : WState) : WState :=
  { s with dom := applyThumbPosition m offsetHeight (applyThumbSize m s.dom) }

/-- The listeners, observer, timer and subscription a widget instance
registers.  A listener is (target, event type, function identity); each
JavaScript `.bind(this)` allocates a fresh function identity, modelled by the
`nextFunId` counter. -/
structure Resources where
  listeners : List (String × String × ℕ)
  observerConnected : Bool
  intervals : List ℕ
  routerSubActive : Bool
  nextFunId : ℕ
  nextTimerId : ℕ
deriving DecidableEq, Repr

/-- `el.addEventListener(event, this.handler.bind(this))`: registers the
freshly bound function. -/
def addEventListenerBound (target event : String) (r : Resources) : Resources :=
  { r with listeners := r.listeners ++ [(target, event, r.nextFunId)],
           nextFunId := r.nextFunId + 1 }

/-- `el.removeEventListener(event, this.handler.bind(this))`: `.bind` creates
a new function identity, so removal filters on an identity that was never
registered. -/
def removeEventListenerBound (target event : String) (r : Resources) : Resources :=
  let fid := r.nextFunId
  { r with listeners := r.listeners.filter (fun l => l ≠ (target, event, fid)),
           nextFunId := r.nextFunId + 1 }

/-- `setupContentObserver` from the source: connect the MutationObserver and
start a `setInterval` whose id is discarded (never stored for clearing). -/
def setupContentObserver (r : Resources) : Resources :=
  { r with observerConnected := true,
           intervals := r.intervals ++ [r.nextTimerId],
           nextTimerId := r.nextTimerId + 1 }

/-- The resource registrations of `ngAfterViewInit`: `setupContentObserver`,
then the thumb's `mousedown` and `touchstart` listeners (each via
`.bind(this)`). -/
def ngAfterViewInit (r : Resources) : Resources :=
  addEventListenerBound "thumb" "touchstart"
    (addEventListenerBound "thumb" "mousedown" (setupContentObserver r))

/-- `ngOnDestroy` from the source: complete the router subscription, call
`removeEventListener` for `mousedown` and `touchstart` with freshly bound
functions, and disconnect the observer.  No `clearInterval` anywhere. -/
def ngOnDestroy (r : Resources) : Resources :=
  let r1 := { r with routerSubActive := false }
  let r2 := removeEventListenerBound "thumb" "mousedown" r1
  let r3 := removeEventListenerBound "thumb" "touchstart" r2
  { r3 with observerConnected := false }

/-- Resource state of a freshly constructed widget after `ngOnInit` (router
subscription active, nothing else registered). -/
def initialResources : Resources :=
  { listeners := [], observerConnected := false, intervals := [],
    routerSubActive := true, nextFunId := 0, nextTimerId := 0 }

/-- JavaScript whitespace, restricted to the characters that can occur in the
transform strings involved. -/
def isWsChar (c : Char) : Bool := c == ' ' || c == '\t' || c == '\n' || c == '\r'

/-- Length of the maximal whitespace run at the head of the list. -/
def wsCount : List Char → ℕ
  | [] => 0
  | c :: cs => if isWsChar c then wsCount cs + 1 else 0

/-- Strip an exact literal from the head of the input, or fail. -/
def dropLit : List Char → List Char → Option (List Char)
  | [], l => some l
  | _ :: _, [] => none
  | c :: cs, d :: ds => if c = d then dropLit cs ds else none

/-- `true` when the input starts with the given literal. -/
def startsWithLit (lit l : List Char) : Bool := (dropLit lit l).isSome

/-- Split the input at its first comma (segment before, remainder after). -/
def splitAtComma : List Char → Option (List Char × List Char)
  | [] => none
  | c :: cs =>
    if c = ',' then some ([], cs)
    else
      match splitAtComma cs with
      | some (seg, rest) => some (c :: seg, rest)
      | none => none

/-- Attempt the tail `\s*([^,]+)px,\s*0\)` of the source's transform regex
`/translate3d\(0,\s*([^,]+)px,\s*0\)/` against `r`, returning the captured
group.  Because neither `\s*`, `[^,]+` nor the literal `px` can match a comma,
the comma after `px` is necessarily the first comma of `r`; the regex's
backtracking therefore reduces deterministically to: the segment before that
comma must end in `px`; the greedy `\s*` takes the segment's whitespace run
except that one whitespace character is returned to the group when the group
would otherwise be empty; after the comma, whitespace then the literal `0)`
must follow (anything may trail, the pattern is unanchored on the right). -/
def matchTail (r : List Char) : Option (List Char) :=
  match splitAtComma r with
  | none => none
  | some (seg, rest2) =>
    let segRev := seg.reverse
    if segRev.take 2 = ['x', 'p'] then
      let pre := (segRev.drop 2).reverse
      if pre = [] then none
      else
        let w := wsCount pre
        let w2 := if w = pre.length then pre.length - 1 else w
        if (dropLit ['0', ')'] (rest2.drop (wsCount rest2))).isSome then some (pre.drop w2)
        else none
    else none

/-- One attempt of the transform regex at the current start position:
the literal `translate3d(0,` followed by the tail pattern. -/
def attemptAt (l : List Char) : Option (List Char) :=
  match dropLit ("translate3d(0,".data) l with
  | some r => matchTail r
  | none => none

/-- `transform.match(/translate3d\(0,\s*([^,]+)px,\s*0\)/)`: JavaScript regex
search tries every start position left to right; returns the captured group of
the leftmost match. -/
def transformCapture : List Char → Option (List Char)
  | [] => none
  | a :: l =>
    match attemptAt (a :: l) with
    | some g => some g
    | none => transformCapture l

/-- Numeric value of a digit character (digits only). -/
def dval (c : Char) : ℚ := ((c.toNat - 48 : ℕ) : ℚ)

/-- Value of a run of decimal digit characters. -/
def digitsVal (l : List Char) : ℚ := l.foldl (fun acc c => acc * 10 + dval c) 0

/-- Value of a run of decimal digit characters, as a natural number. -/
def digitsValN (l : List Char) : ℕ := l.foldl (fun acc c => acc * 10 + (c.toNat - 48)) 0

/-- Optional sign at the head: returns (negative?, rest). -/
def readSign (l : List Char) : Bool × List Char :=
  match l with
  | c :: r => if c = '-' then (true, r) else if c = '+' then (false, r) else (false, l)
  | [] => (false, l)

/-- Optional fraction part `.digits` at the head: returns (fraction digits, rest). -/
def readFraction (l : List Char) : List Char × List Char :=
  match l with
  | c :: r =>
    if c = '.' then (r.takeWhile Char.isDigit, r.drop (r.takeWhile Char.isDigit).length)
    else ([], l)
  | [] => ([], l)

/-- Optional exponent part `e|E [sign] digits`; contributes `0` when absent or
malformed (JavaScript only consumes a syntactically complete exponent). -/
def parseExp (l : List Char) : ℤ :=
  match l with
  | c :: r =>
    if c = 'e' ∨ c = 'E' then
      let sr := readSign r
      let ds := sr.2.takeWhile Char.isDigit
      if ds = [] then 0
      else if sr.1 then -(digitsValN ds : ℤ) else (digitsValN ds : ℤ)
    else 0
  | [] => 0

/-- JavaScript `parseFloat`, restricted to the grammar reachable here:
optional whitespace, optional sign, then either `Infinity` or a decimal
literal `digits [. digits] [e|E [sign] digits]` with at least one digit;
anything after the longest valid prefix is ignored; no valid prefix yields
`NaN`. -/
def parseFloat (l : List Char) : JNum :=
  let l1 := l.drop (wsCount l)
  let sr := readSign l1
  let l2 := sr.2
  if startsWithLit ("Infinity".data) l2 then (if sr.1 then .ninf else .pinf)
  else
    let ip := l2.takeWhile Char.isDigit
    let l3 := l2.drop ip.length
    let fr := readFraction l3
    let fp := fr.1
    if ip = [] ∧ fp = [] then .nan
    else
      let mant : ℚ := digitsVal ip + digitsVal fp / (10 : ℚ) ^ fp.length
      let v := mant * (10 : ℚ) ^ (parseExp fr.2)
      .num (if sr.1 then -v else v)

/-- The `thumbStartY` capture shared by `onThumbMouseDown` and
`onThumbTouchStart`:
`const match = transform.match(/translate3d\(0,\s*([^,]+)px,\s*0\)/);
this.thumbStartY = match ? parseFloat(match[1]) : 0;`. -/
def parseThumbStartY (transform : List Char) : JNum :=
  match transformCapture transform with
  | some g => parseFloat g
  | none => .num 0

/-- The decimal digit character for `n < 10`. -/
def digitChar (n : ℕ) : Char := Char.ofNat (48 + n)

/-- Decimal digits of `n`, least significant first. -/
def natDigitsRev (n : ℕ) : List Char :=
  if _ : n < 10 then [digitChar n]
  else digitChar (n % 10) :: natDigitsRev (n / 10)
decreasing_by exact Nat.div_lt_self (by omega) (by omega)

/-- Decimal rendering of a whole number, as JavaScript renders it into the
transform template. -/
def natToChars (n : ℕ) : List Char := (natDigitsRev n).reverse

/-- The transform string the widget writes for a rendered offset `ds`:
`translate3d(0, DSpx, 0)` (template literal of the source). -/
def writeTransform (ds : List Char) : List Char :=
  ("translate3d(0, ".data) ++ ds ++ ("px, 0)".data)

/-- Rational-valued thumb height of the shown branch of `updateThumbSize`,
used to state bounds (the branch provably computes this value). -/
def shownThumbHeight (m : ScrollMetrics) : ℚ :=
  max 50 (min (m.clientHeight - 20) (m.clientHeight * (m.clientHeight / m.scrollHeight)))

theorem JNum.div_num (a b : ℚ) (hb : b ≠ 0) : JNum.div (.num a) (.num b) = .num (a / b) := by
  simp [JNum.div, hb]

theorem JNum.mul_num (a b : ℚ) : JNum.mul (.num a) (.num b) = .num (a * b) := rfl

theorem JNum.jmax_num (a b : ℚ) : JNum.jmax (.num a) (.num b) = .num (max a b) := rfl

theorem JNum.jmin_num (a b : ℚ) : JNum.jmin (.num a) (.num b) = .num (min a b) := rfl

/-- Claim C1 (counterexample): at metrics `scrollTop = 0`,
`scrollHeight = clientHeight = 300` the denominator `scrollHeight -
clientHeight` is `0`, yet the scroll fraction computed by
`updateThumbPosition` is `NaN`, not the claimed safe default `0`, and the
resulting offsetY is `NaN`, not `0`. -/
theorem scrollbar_c1_counterexample :
    (⟨0, 300, 300⟩ : ScrollMetrics).scrollHeight - (⟨0, 300, 300⟩ : ScrollMetrics).clientHeight = 0 ∧
    JNum.div (.num (⟨0, 300, 300⟩ : ScrollMetrics).scrollTop)
        (.num ((⟨0, 300, 300⟩ : ScrollMetrics).scrollHeight - (⟨0, 300, 300⟩ : ScrollMetrics).clientHeight))
      = JNum.nan ∧
    updateThumbPosition ⟨0, 300, 300⟩ 90 = JNum.nan := by
  refine ⟨by norm_num, ?_, ?_⟩ <;> simp [updateThumbPosition, JNum.div, JNum.mul]

/-- Claim C1 (amended): `updateThumbPosition` computes the scroll fraction
`scrollTop / (scrollHeight - clientHeight)` and multiplies by `thumbMaxY =
clientHeight - offsetHeight`, but the division is NOT guarded: whenever the
denominator is nonzero the offsetY is exactly the formula value, and whenever
the denominator is `0` the result is a non-finite value (`NaN` or `±Infinity`),
never the safe default `0`. -/
theorem scrollbar_c1_division_unguarded (m : ScrollMetrics) (offsetHeight : ℚ) :
    (m.scrollHeight - m.clientHeight ≠ 0 →
      updateThumbPosition m offsetHeight =
        .num (m.scrollTop / (m.scrollHeight - m.clientHeight) * (m.clientHeight - offsetHeight))) ∧
    (m.scrollHeight - m.clientHeight = 0 →
      (updateThumbPosition m offsetHeight).finite? = false) := by
  constructor
  · intro h
    simp [updateThumbPosition, JNum.div_num _ _ h, JNum.mul_num]
  · intro h
    rcases lt_trichotomy m.scrollTop 0 with h1 | h1 | h1 <;>
      rcases lt_trichotomy (m.clientHeight - offsetHeight) 0 with h2 | h2 | h2 <;>
        simp [updateThumbPosition, JNum.div, JNum.mul, JNum.finite?, h, h1, h2,
              not_lt_of_lt, ne_of_lt, ne_of_gt, le_of_lt]

/-- Claim C1 (witness for the amended theorem): with a nonzero denominator the
formula value is produced (`700/700 * 210 = 210`), and at a zero denominator
the result is non-finite. -/
theorem scrollbar_c1_division_unguarded_witness :
    updateThumbPosition ⟨700, 1000, 300⟩ 90 = JNum.num 210 ∧
    (updateThumbPosition ⟨0, 300, 300⟩ 90).finite? = false := by
  constructor
  · have h := (scrollbar_c1_division_unguarded ⟨700, 1000, 300⟩ 90).1 (by norm_num)
    rw [h]; norm_num
  · exact (scrollbar_c1_division_unguarded ⟨0, 300, 300⟩ 90).2 (by norm_num)

/-- Claim C2 (counterexample): the valid metrics `scrollTop = 0,
scrollHeight = 100, clientHeight = 30` satisfy `scrollHeight > clientHeight + 5`,
yet `updateThumbSize` computes thumb height `50 = minHeight`, which exceeds
`clientHeight - edgeMargin = 10`: the claimed upper bound fails. -/
theorem scrollbar_c2_counterexample :
    (⟨0, 100, 30⟩ : ScrollMetrics).valid ∧
    (⟨0, 100, 30⟩ : ScrollMetrics).clientHeight + 5 < (⟨0, 100, 30⟩ : ScrollMetrics).scrollHeight ∧
    (updateThumbSize ⟨0, 100, 30⟩).thumbHeight = some (JNum.num 50) ∧
    ¬ ((50 : ℚ) ≤ 30 - 20) := by
  refine ⟨⟨by norm_num, by norm_num, by norm_num⟩, by norm_num, ?_, by norm_num⟩
  simp [updateThumbSize, JNum.div, JNum.mul, JNum.jmin, JNum.jmax]
  norm_num

/-- Claim C2 (amended): for metrics with `scrollHeight > clientHeight + 5`
(and positive `scrollHeight`, the data-model invariant), the computed thumb
height is `clamp(clientHeight * (clientHeight / scrollHeight), 50,
clientHeight - 20)`; it always satisfies the lower bound `50 ≤ height` and the
bound `height ≤ max 50 (clientHeight - 20)`, and it satisfies the claimed
upper bound `height ≤ clientHeight - 20` provided `clientHeight ≥ 70` (i.e.
`minHeight ≤ clientHeight - edgeMargin`). -/
theorem scrollbar_c2_thumb_height_bounds (m : ScrollMetrics)
    (h5 : m.clientHeight + 5 < m.scrollHeight) (hsh : 0 < m.scrollHeight) :
    (updateThumbSize m).thumbHeight = some (JNum.num (shownThumbHeight m)) ∧
    50 ≤ shownThumbHeight m ∧
    shownThumbHeight m ≤ max 50 (m.clientHeight - 20) ∧
    (70 ≤ m.clientHeight → shownThumbHeight m ≤ m.clientHeight - 20) := by
  refine ⟨?_, le_max_left _ _, ?_, ?_⟩
  · simp [updateThumbSize, shownThumbHeight, not_le.mpr h5,
          JNum.div_num _ _ (ne_of_gt hsh), JNum.mul_num, JNum.jmin_num, JNum.jmax_num]
  · exact max_le_max le_rfl (min_le_left _ _)
  · intro h70
    exact max_le (by linarith) (min_le_left _ _)

/-- Claim C2 (witness for the amended theorem): at `clientHeight = 300,
scrollHeight = 1000` the computed height is `90` and all the bounds hold. -/
theorem scrollbar_c2_thumb_height_bounds_witness :
    (updateThumbSize ⟨0, 1000, 300⟩).thumbHeight = some (JNum.num (shownThumbHeight ⟨0, 1000, 300⟩)) ∧
    shownThumbHeight ⟨0, 1000, 300⟩ = 90 ∧
    50 ≤ shownThumbHeight ⟨0, 1000, 300⟩ ∧
    shownThumbHeight ⟨0, 1000, 300⟩ ≤ (300 : ℚ) - 20 := by
  have h := scrollbar_c2_thumb_height_bounds ⟨0, 1000, 300⟩ (by norm_num) (by norm_num)
  have h90 : shownThumbHeight ⟨0, 1000, 300⟩ = 90 := by
    simp [shownThumbHeight]
    norm_num
  exact ⟨h.1, h90, h.2.1, h.2.2.2 (by norm_num)⟩

/-- Claim C3: round-trip consistency.  For metrics with
`scrollHeight > clientHeight`, `scrollTop ∈ [0, scrollHeight - clientHeight]`,
and a thumb strictly shorter than the track (`offsetHeight < clientHeight`),
mapping `scrollTop` to a thumb offset via `updateThumbPosition` and feeding
that offset back through the drag inverse (`onDocumentMouseMove` with zero
pointer delta) recovers exactly the original `scrollTop` (exact rational
arithmetic, so the floating-point tolerance is met with tolerance 0). -/
theorem scrollbar_c3_roundtrip (m : ScrollMetrics) (offsetHeight : ℚ)
    (hgt : m.clientHeight < m.scrollHeight)
    (h0 : 0 ≤ m.scrollTop) (hle : m.scrollTop ≤ m.scrollHeight - m.clientHeight)
    (hth : offsetHeight < m.clientHeight) :
    updateThumbPosition m offsetHeight =
      JNum.num (m.scrollTop / (m.scrollHeight - m.clientHeight) * (m.clientHeight - offsetHeight)) ∧
    onDocumentMouseMove true 0
        (m.scrollTop / (m.scrollHeight - m.clientHeight) * (m.clientHeight - offsetHeight)) 0 m offsetHeight =
      some { thumbY := JNum.num (m.scrollTop / (m.scrollHeight - m.clientHeight) * (m.clientHeight - offsetHeight)),
             scrollTop := JNum.num m.scrollTop } := by
  have hd : (0 : ℚ) < m.scrollHeight - m.clientHeight := sub_pos.mpr hgt
  have hM : (0 : ℚ) < m.clientHeight - offsetHeight := sub_pos.mpr hth
  set d := m.scrollHeight - m.clientHeight with hdef
  set M := m.clientHeight - offsetHeight with hMdef
  have hy0 : 0 ≤ m.scrollTop / d * M := mul_nonneg (div_nonneg h0 hd.le) hM.le
  have hyM : m.scrollTop / d * M ≤ M := by
    have hfrac : m.scrollTop / d ≤ 1 := (div_le_one hd).mpr hle
    nlinarith
  constructor
  · simp [updateThumbPosition, JNum.div_num _ _ (ne_of_gt hd), JNum.mul_num, hdef, hMdef]
  · have hclamp : max 0 (min (m.scrollTop / d * M + (0 - 0)) M) = m.scrollTop / d * M := by
      rw [sub_self, add_zero, min_eq_left hyM, max_eq_right hy0]
    have hback : m.scrollTop / d * M / M * d = m.scrollTop := by
      field_simp
      ring
    simp only [onDocumentMouseMove, Bool.not_true, Bool.false_eq_true, if_false]
    rw [← hdef, ← hMdef]
    simp only [hclamp, JNum.div_num _ _ (ne_of_gt hM), JNum.mul_num, hback]

/-- Claim C3 (witness): at `clientHeight = 300, scrollHeight = 1000,
scrollTop = 700, thumbHeight = 90` the offset is `210` and the drag inverse
maps it back to `700`. -/
theorem scrollbar_c3_roundtrip_witness :
    updateThumbPosition ⟨700, 1000, 300⟩ 90 = JNum.num (700 / ((1000 : ℚ) - 300) * (300 - 90)) ∧
    onDocumentMouseMove true 0 (700 / ((1000 : ℚ) - 300) * (300 - 90)) 0 ⟨700, 1000, 300⟩ 90 =
      some { thumbY := JNum.num (700 / ((1000 : ℚ) - 300) * (300 - 90)), scrollTop := JNum.num 700 } :=
  scrollbar_c3_roundtrip ⟨700, 1000, 300⟩ 90 (by norm_num) (by norm_num) (by norm_num) (by norm_num)

/-- Claim C4: for every metrics state with `scrollHeight ≤ clientHeight + 5`
(any `scrollTop`), `updateThumbSize` hides both the thumb and the track and
derives no thumb height. -/
theorem scrollbar_c4_hidden_state (m : ScrollMetrics)
    (h : m.scrollHeight ≤ m.clientHeight + 5) :
    updateThumbSize m =
      { thumbDisplay := "none", trackDisplay := "none", thumbHeight := none } := by
  simp [updateThumbSize, h]

/-- Claim C4 (witness): at `scrollTop = 123, scrollHeight = 300,
clientHeight = 300` the widget is put in the hidden state. -/
theorem scrollbar_c4_hidden_state_witness :
    updateThumbSize ⟨123, 300, 300⟩ =
      { thumbDisplay := "none", trackDisplay := "none", thumbHeight := none } :=
  scrollbar_c4_hidden_state ⟨123, 300, 300⟩ (by norm_num)

/-- Claim C5: every drag-move writes the thumb offset
`clamp(thumbStartY + (pointerY - pointerStartY), 0, thumbMaxY)`; whenever the
thumb fits the track (`offsetHeight ≤ clientHeight`) the written offset lies
in `[0, thumbMaxY]`, a candidate at or beyond the top end is pinned to exactly
`0`, and a candidate at or beyond the bottom end is pinned to exactly
`thumbMaxY`. -/
theorem scrollbar_c5_drag_clamp (dragStartY thumbStartY clientY : ℚ)
    (m : ScrollMetrics) (offsetHeight : ℚ) :
    (onDocumentMouseMove true dragStartY thumbStartY clientY m offsetHeight).map DragMoveResult.thumbY
      = some (JNum.num (max 0 (min (thumbStartY + (clientY - dragStartY)) (m.clientHeight - offsetHeight)))) ∧
    (offsetHeight ≤ m.clientHeight →
      (0 : ℚ) ≤ max 0 (min (thumbStartY + (clientY - dragStartY)) (m.clientHeight - offsetHeight)) ∧
      max 0 (min (thumbStartY + (clientY - dragStartY)) (m.clientHeight - offsetHeight))
        ≤ m.clientHeight - offsetHeight) ∧
    (thumbStartY + (clientY - dragStartY) ≤ 0 →
      max 0 (min (thumbStartY + (clientY - dragStartY)) (m.clientHeight - offsetHeight)) = 0) ∧
    (offsetHeight ≤ m.clientHeight →
      m.clientHeight - offsetHeight ≤ thumbStartY + (clientY - dragStartY) →
      max 0 (min (thumbStartY + (clientY - dragStartY)) (m.clientHeight - offsetHeight))
        = m.clientHeight - offsetHeight) := by
  refine ⟨?_, ?_, ?_, ?_⟩
  · simp [onDocumentMouseMove]
  · intro h
    exact ⟨le_max_left _ _, max_le (by linarith) (min_le_right _ _)⟩
  · intro h
    exact max_eq_left (le_trans (min_le_left _ _) h)
  · intro h hbot
    rw [min_eq_right hbot, max_eq_right (by linarith)]

/-- Claim C5 (witness): with `clientHeight = 300` and `offsetHeight = 300`
(so `thumbMaxY = 0`) and a zero-delta drag from offset `0`, every hypothesis
of the clamp theorem is discharged and the written offset is exactly `0`. -/
theorem scrollbar_c5_drag_clamp_witness :
    (onDocumentMouseMove true 0 0 0 ⟨700, 1000, 300⟩ 300).map DragMoveResult.thumbY
      = some (JNum.num (max 0 (min ((0 : ℚ) + (0 - 0)) ((300 : ℚ) - 300)))) ∧
    (0 : ℚ) ≤ max 0 (min ((0 : ℚ) + (0 - 0)) ((300 : ℚ) - 300)) ∧
    max 0 (min ((0 : ℚ) + (0 - 0)) ((300 : ℚ) - 300)) = 0 ∧
    max 0 (min ((0 : ℚ) + (0 - 0)) ((300 : ℚ) - 300)) = (300 : ℚ) - 300 := by
  have h := scrollbar_c5_drag_clamp 0 0 0 ⟨700, 1000, 300⟩ 300
  exact ⟨h.1, (h.2.1 (by norm_num)).1, h.2.2.1 (by norm_num),
         h.2.2.2 (by norm_num) (by norm_num)⟩

/-- Claim C6 (counterexample): during an active drag (`isDragging = true`),
the MutationObserver recompute and the window-resize recompute still write the
thumb position: from transform `0` they move the thumb to `210` at metrics
`(700, 1000, 300)`.  This refutes "ambient recompute never writes the thumb
position during a drag". -/
theorem scrollbar_c6_counterexample :
    (⟨true, ⟨JNum.num 0, "block", "block", some (JNum.num 90)⟩⟩ : WState).isDragging = true ∧
    (contentMutationRecompute ⟨700, 1000, 300⟩ 90
        ⟨true, ⟨JNum.num 0, "block", "block", some (JNum.num 90)⟩⟩).dom.thumbTransform
      = JNum.num 210 ∧
    (onWindowResize ⟨700, 1000, 300⟩ 90
        ⟨true, ⟨JNum.num 0, "block", "block", some (JNum.num 90)⟩⟩).dom.thumbTransform
      = JNum.num 210 ∧
    JNum.num 210 ≠ JNum.num 0 := by
  refine ⟨rfl, ?_, ?_, by decide⟩ <;>
    · simp [contentMutationRecompute, onWindowResize, applyThumbPosition, applyThumbSize,
            updateThumbPosition, JNum.div, JNum.mul]
      norm_num

/-- Claim C6 (amended): while a drag is active the viewport scroll path is
indeed suppressed (`onContentScroll` is a no-op when `isDragging`), and the
periodic ~1 s recheck only updates thumb size, never the thumb position; but
the mutation-observer and resize recomputes are NOT suppressed during a drag
(see the counterexample). -/
theorem scrollbar_c6_drag_suppression (m : ScrollMetrics) (offsetHeight : ℚ) (s : WState) :
    (s.isDragging = true → onContentScroll m offsetHeight s = s) ∧
    (periodicSizeRecheck m s).dom.thumbTransform = s.dom.thumbTransform ∧
    (periodicSizeRecheck m s).isDragging = s.isDragging := by
  refine ⟨?_, ?_, rfl⟩
  · intro h
    simp [onContentScroll, h]
  · simp [periodicSizeRecheck, applyThumbSize]

/-- Claim C6 (witness for the amended theorem): with the drag active, a scroll
event leaves the widget state untouched, and the periodic recheck leaves the
thumb transform untouched. -/
theorem scrollbar_c6_drag_suppression_witness :
    onContentScroll ⟨700, 1000, 300⟩ 90
        ⟨true, ⟨JNum.num 0, "block", "block", some (JNum.num 90)⟩⟩
      = ⟨true, ⟨JNum.num 0, "block", "block", some (JNum.num 90)⟩⟩ ∧
    (periodicSizeRecheck ⟨700, 1000, 300⟩
        ⟨true, ⟨JNum.num 0, "block", "block", some (JNum.num 90)⟩⟩).dom.thumbTransform
      = JNum.num 0 := by
  have h := scrollbar_c6_drag_suppression ⟨700, 1000, 300⟩ 90
    ⟨true, ⟨JNum.num 0, "block", "block", some (JNum.num 90)⟩⟩
  exact ⟨h.1 rfl, h.2.1⟩

/-- Claim C7: evaluation of mount followed by teardown.  After `ngOnDestroy`,
the ~1 s `setInterval` is still registered (its id was never stored, and no
`clearInterval` exists), and the thumb's `mousedown`/`touchstart` listeners
are still attached (removal used freshly `.bind(this)`-created function
identities, which never match the registered ones).  Only the router
subscription and the MutationObserver are actually stopped.  This contradicts
the claim that every listener, observer and timer is stopped. -/
theorem scrollbar_c7_teardown_leaks :
    ngOnDestroy (ngAfterViewInit initialResources) =
      { listeners := [("thumb", "mousedown", 0), ("thumb", "touchstart", 1)],
        observerConnected := false, intervals := [0], routerSubActive := false,
        nextFunId := 4, nextTimerId := 1 } ∧
    ("thumb", "mousedown", 0) ∈ (ngOnDestroy (ngAfterViewInit initialResources)).listeners ∧
    ("thumb", "touchstart", 1) ∈ (ngOnDestroy (ngAfterViewInit initialResources)).listeners ∧
    (ngOnDestroy (ngAfterViewInit initialResources)).intervals ≠ [] := by
  refine ⟨by decide, by decide, by decide, by decide⟩

/-- Claim C8: a track activation on the thumb itself does nothing; otherwise
the handler clamps `(clickY - trackRect.top) - thumbHeight/2` to
`[0, thumbMaxY]`, converts it with exactly the drag inverse mapping, and
requests a smooth scroll. -/
theorem scrollbar_c8_track_click (clientY rectTop : ℚ) (m : ScrollMetrics) (offsetHeight : ℚ) :
    onTrackClick true clientY rectTop m offsetHeight = none ∧
    onTrackClick false clientY rectTop m offsetHeight =
      some { top := JNum.mul
               (JNum.div
                 (.num (max 0 (min (clientY - rectTop - offsetHeight / 2) (m.clientHeight - offsetHeight))))
                 (.num (m.clientHeight - offsetHeight)))
               (.num (m.scrollHeight - m.clientHeight)),
             smooth := true } ∧
    (onTrackClick false clientY rectTop m offsetHeight).map ScrollRequest.top =
      (onDocumentMouseMove true 0 (clientY - rectTop - offsetHeight / 2) 0 m offsetHeight).map
        DragMoveResult.scrollTop := by
  refine ⟨rfl, ?_, ?_⟩
  · simp [onTrackClick]
  · simp [onTrackClick, onDocumentMouseMove]

theorem dropLit_append (lit r : List Char) : dropLit lit (lit ++ r) = some r := by
  induction lit with
  | nil => rfl
  | cons c cs ih => simp [dropLit, ih]

theorem splitAtComma_append (seg rest : List Char) (h : ',' ∉ seg) :
    splitAtComma (seg ++ ',' :: rest) = some (seg, rest) := by
  induction seg with
  | nil => simp [splitAtComma]
  | cons c cs ih =>
    simp only [List.mem_cons, not_or] at h
    simp [splitAtComma, Ne.symm h.1, ih h.2]

theorem isDigit_ne (c : Char) (h : c.isDigit = true) :
    c ≠ ',' ∧ c ≠ '-' ∧ c ≠ '+' ∧ c ≠ 'I' ∧ isWsChar c = false := by
  have hs : c ≠ ' ' := by rintro rfl; revert h; decide
  have ht : c ≠ '\t' := by rintro rfl; revert h; decide
  have hn : c ≠ '\n' := by rintro rfl; revert h; decide
  have hr : c ≠ '\r' := by rintro rfl; revert h; decide
  refine ⟨?_, ?_, ?_, ?_, by simp [isWsChar, hs, ht, hn, hr]⟩ <;>
    (rintro rfl; revert h; decide)

theorem wsCount_cons_not (c : Char) (cs : List Char) (h : isWsChar c = false) :
    wsCount (c :: cs) = 0 := by simp [wsCount, h]

theorem takeWhile_all_digits (l : List Char) (h : ∀ c ∈ l, c.isDigit = true) :
    l.takeWhile Char.isDigit = l := by
  induction l with
  | nil => rfl
  | cons c cs ih =>
    rw [List.takeWhile_cons, if_pos (h c (by simp)), ih (fun d hd => h d (by simp [hd]))]

theorem digitChar_isDigit (m : ℕ) (h : m < 10) : (digitChar m).isDigit = true := by
  interval_cases m <;> decide

theorem dval_digitChar (m : ℕ) (h : m < 10) : dval (digitChar m) = m := by
  interval_cases m <;> decide

theorem natDigitsRev_ne_nil (n : ℕ) : natDigitsRev n ≠ [] := by
  rw [natDigitsRev]; split <;> simp

theorem natDigitsRev_digits (n : ℕ) : ∀ c ∈ natDigitsRev n, c.isDigit = true := by
  induction n using Nat.strong_induction_on with
  | _ n ih =>
    rw [natDigitsRev]
    split
    · next h =>
      intro c hc
      simp only [List.mem_singleton] at hc
      subst hc
      exact digitChar_isDigit n h
    · next h =>
      intro c hc
      simp only [List.mem_cons] at hc
      rcases hc with rfl | hc
      · exact digitChar_isDigit _ (Nat.mod_lt _ (by omega))
      · exact ih (n / 10) (Nat.div_lt_self (by omega) (by omega)) c hc

theorem natToChars_ne_nil (n : ℕ) : natToChars n ≠ [] := by
  rw [natToChars]
  simpa using natDigitsRev_ne_nil n

theorem natToChars_digits (n : ℕ) : ∀ c ∈ natToChars n, c.isDigit = true := by
  intro c hc
  rw [natToChars, List.mem_reverse] at hc
  exact natDigitsRev_digits n c hc

theorem digitsVal_append_singleton (xs : List Char) (c : Char) :
    digitsVal (xs ++ [c]) = digitsVal xs * 10 + dval c := by
  simp [digitsVal, List.foldl_append]

theorem digitsVal_natToChars (n : ℕ) : digitsVal (natToChars n) = n := by
  induction n using Nat.strong_induction_on with
  | _ n ih =>
    by_cases h : n < 10
    · rw [natToChars, natDigitsRev, dif_pos h]
      simp [digitsVal, dval_digitChar n h]
    · rw [natToChars, natDigitsRev, dif_neg h, List.reverse_cons, digitsVal_append_singleton,
          ← natToChars, ih (n / 10) (Nat.div_lt_self (by omega) (by omega)),
          dval_digitChar _ (Nat.mod_lt _ (by omega))]
      have h2 : 10 * (n / 10) + n % 10 = n := Nat.div_add_mod n 10
      have h3 : ((10 * (n / 10) + n % 10 : ℕ) : ℚ) = ((n : ℕ) : ℚ) := by rw [h2]
      push_cast at h3
      linarith

theorem parseFloat_digits (ds : List Char) (hne : ds ≠ [])
    (hdig : ∀ c ∈ ds, c.isDigit = true) : parseFloat ds = .num (digitsVal ds) := by
  obtain ⟨d, ds', rfl⟩ := List.exists_cons_of_ne_nil hne
  obtain ⟨hcomma, hminus, hplus, hI, hws⟩ := isDigit_ne d (hdig d (by simp))
  have hsign : readSign (d :: ds') = (false, d :: ds') := by
    simp [readSign, hminus, hplus]
  have hInf : startsWithLit ("Infinity".data) (d :: ds') = false := by
    have hlit : ("Infinity".data : List Char) = 'I' :: "nfinity".data := by decide
    simp [startsWithLit, hlit, dropLit, Ne.symm hI]
  have htake : (d :: ds').takeWhile Char.isDigit = d :: ds' := takeWhile_all_digits _ hdig
  simp only [parseFloat, wsCount_cons_not d ds' hws, List.drop_zero, hsign, hInf,
             Bool.false_eq_true, if_false, htake, List.drop_length, readFraction, parseExp]
  simp [digitsVal]

theorem matchTail_write (ds : List Char) (hne : ds ≠ [])
    (hdig : ∀ c ∈ ds, c.isDigit = true) :
    matchTail ((' ' :: (ds ++ ['p', 'x'])) ++ ',' :: [' ', '0', ')']) = some ds := by
  have hnocomma : ',' ∉ (' ' :: (ds ++ ['p', 'x'])) := by
    simp only [List.mem_cons, List.mem_append, not_or]
    refine ⟨by decide, fun hmem => ?_, by decide⟩
    have := hdig ',' hmem
    revert this
    decide
  have hsplit := splitAtComma_append (' ' :: (ds ++ ['p', 'x'])) [' ', '0', ')'] hnocomma
  have hrev : (' ' :: (ds ++ ['p', 'x'])).reverse = 'x' :: 'p' :: (ds.reverse ++ [' ']) := by
    simp
  obtain ⟨d, ds', rfl⟩ := List.exists_cons_of_ne_nil hne
  have hd := (isDigit_ne d (hdig d (by simp))).2.2.2.2
  have hwpre : wsCount (' ' :: d :: ds') = 1 := by
    simp [wsCount, show isWsChar ' ' = true from by decide, hd]
  simp only [matchTail, hsplit, hrev]
  simp only [List.take, List.drop, List.reverse_append, List.reverse_reverse, List.reverse_cons,
             List.reverse_nil, List.nil_append, List.cons_append, List.singleton_append]
  rw [if_pos trivial]
  rw [if_neg (show ¬ (' ' :: d :: ds' = []) by simp)]
  rw [show (dropLit ['0', ')'] ['0', ')']).isSome = true from by decide, if_pos rfl]
  have hlen : (' ' :: d :: ds').length = ds'.length + 2 := by simp
  rw [hwpre, hlen, if_neg (by omega)]
  simp

theorem transformCapture_cons (a : Char) (l : List Char) :
    transformCapture (a :: l) =
      match attemptAt (a :: l) with
      | some g => some g
      | none => transformCapture l := by
  rw [transformCapture]

theorem transformCapture_of_attempt (l g : List Char)
    (hl : l ≠ []) (h : attemptAt l = some g) : transformCapture l = some g := by
  cases l with
  | nil => exact absurd rfl hl
  | cons a t => rw [transformCapture_cons, h]

theorem transformCapture_write (ds : List Char) (hne : ds ≠ [])
    (hdig : ∀ c ∈ ds, c.isDigit = true) :
    transformCapture (writeTransform ds) = some ds := by
  have hshape : writeTransform ds =
      ("translate3d(0,".data) ++ ((' ' :: (ds ++ ['p', 'x'])) ++ ',' :: [' ', '0', ')']) := by
    have hlit : ("translate3d(0, ".data : List Char) = "translate3d(0,".data ++ [' '] := by decide
    have hpx : ("px, 0)".data : List Char) = ['p', 'x', ',', ' ', '0', ')'] := by decide
    rw [writeTransform, hlit, hpx]
    simp
  have hattempt : attemptAt (("translate3d(0,".data) ++
      ((' ' :: (ds ++ ['p', 'x'])) ++ ',' :: [' ', '0', ')'])) = some ds := by
    simp only [attemptAt, dropLit_append]
    exact matchTail_write ds hne hdig
  rw [hshape]
  exact transformCapture_of_attempt _ _ (by simp) hattempt

/-- Claim C9: the drag-start capture of the thumb's current offset (shared by
`onThumbMouseDown` and `onThumbTouchStart`).  When the transform string does
not match the parse pattern, `thumbStartY` falls back to `0` (total, no
error); when it matches, `thumbStartY` is the parsed offset — in particular,
for every transform the widget itself writes for a whole-number offset `n`,
parsing recovers exactly `n`. -/
theorem scrollbar_c9_thumb_start_parse :
    (∀ t : List Char, transformCapture t = none → parseThumbStartY t = JNum.num 0) ∧
    (∀ n : ℕ, parseThumbStartY (writeTransform (natToChars n)) = JNum.num n) := by
  constructor
  · intro t h
    simp [parseThumbStartY, h]
  · intro n
    have h1 := transformCapture_write (natToChars n) (natToChars_ne_nil n) (natToChars_digits n)
    simp only [parseThumbStartY, h1]
    rw [parseFloat_digits _ (natToChars_ne_nil n) (natToChars_digits n), digitsVal_natToChars]

/-- Claim C9 (witness): the transform `"none"` does not match and parses to
offset `0`; the widget-written transform for offset `210` parses back to `210`. -/
theorem scrollbar_c9_thumb_start_parse_witness :
    parseThumbStartY ("none".data) = JNum.num 0 ∧
    parseThumbStartY (writeTransform (natToChars 210)) = JNum.num 210 := by
  refine ⟨scrollbar_c9_thumb_start_parse.1 _ (by decide), ?_⟩
  have h := scrollbar_c9_thumb_start_parse.2 210
  simpa using h

/-- Claim C10: whenever `thumbColorOverride` is non-empty,
`applyCustomization` uses it for the thumb background AND for the
thumb-hover and thumb-active custom properties; likewise a non-empty
`trackColorOverride` replaces both the track background and the track-hover
custom property, so none of the scheme's hover/active variants for the
overridden element are applied. -/
theorem scrollbar_c10_override_precedence (thumbOv trackOv : String) (scheme : ColorScheme) :
    (thumbOv ≠ "" →
      (applyCustomization thumbOv trackOv scheme).thumbBackground = thumbOv ∧
      (applyCustomization thumbOv trackOv scheme).thumbHoverVar = thumbOv ∧
      (applyCustomization thumbOv trackOv scheme).thumbActiveVar = thumbOv) ∧
    (trackOv ≠ "" →
      (applyCustomization thumbOv trackOv scheme).trackBackground = trackOv ∧
      (applyCustomization thumbOv trackOv scheme).trackHoverVar = trackOv) := by
  constructor <;> intro h <;>
    simp [applyCustomization, jsOrString, h]

/-- Claim C10 (witness): with overrides `"red"`/`"blue"` on the green scheme,
the hover/active custom properties receive the overrides, not the scheme's
hover/active colors. -/
theorem scrollbar_c10_override_precedence_witness :
    (applyCustomization "red" "blue" greenScheme).thumbBackground = "red" ∧
    (applyCustomization "red" "blue" greenScheme).thumbHoverVar = "red" ∧
    (applyCustomization "red" "blue" greenScheme).thumbActiveVar = "red" ∧
    (applyCustomization "red" "blue" greenScheme).trackBackground = "blue" ∧
    (applyCustomization "red" "blue" greenScheme).trackHoverVar = "blue" := by
  have h := scrollbar_c10_override_precedence "red" "blue" greenScheme
  have h1 := h.1 (by decide)
  have h2 := h.2 (by decide)
  exact ⟨h1.1, h1.2.1, h1.2.2, h2.1, h2.2⟩

end OverlayScrollbar
